import Mathlib

/-!
The mono sensor node of depthai_ros_driver.

A shallow embedding of `dai_nodes/sensors/mono.cpp` and of the declarations of
`dai_nodes/sensors/sensor_helpers.hpp` it uses.

* The device pipeline (`dai::Pipeline`) is a graph value: a list of stages and a
  list of links.  A `std::shared_ptr` to a stage is the position of the stage in
  the list, so aliasing between the node's members and the pipeline is kept.
* The device (`dai::Device`) and the queues it owns are the list of calls made
  on them, oldest first.  A `std::shared_ptr` to a queue is the direction and
  stream name the queue was looked up with.
* Members of `Mono` that C++ leaves null until assigned are `Option`s; calling
  through a null member makes the operation fail (`none`).
-/

namespace depthai_ros_driver

/-! ## Pipeline graph -/

/-- Values of `dai::VideoEncoderProperties::Profile` that this node uses. -/
inductive Profile
  | MJPEG
  | H264_HIGH
  deriving DecidableEq, Repr

/-- Stage classes this node instantiates with `pipeline->create<...>()`. -/
inductive NodeKind
  | MonoCamera
  | VideoEncoder
  | XLinkOut
  | XLinkIn
  deriving DecidableEq, Repr

/-- Ports of the stages that `mono.cpp` links. -/
inductive Port
  | out
  | input
  | bitstream
  | inputControl
  deriving DecidableEq, Repr

/-- One stage of the pipeline.  A property is `none` until the node code sets it. -/
structure PNode where
  kind : NodeKind
  streamName : Option String := none
  fps : Option Nat := none
  quality : Option Int := none
  profile : Option Profile := none
  keyframeFrequency : Option Int := none
  inputQueueSize : Option Int := none
  inputBlocking : Option Bool := none
  deriving DecidableEq, Repr

/-- A port of a stage, the stage given by its position in the pipeline. -/
structure Endpoint where
  node : Nat
  port : Port
  deriving DecidableEq, Repr

/-- Result of `src.link(dst)`. -/
structure Link where
  src : Endpoint
  dst : Endpoint
  deriving DecidableEq, Repr

/-- The shared `dai::Pipeline`. -/
structure Pipeline where
  nodes : List PNode := []
  links : List Link := []
  deriving DecidableEq, Repr

/-- Apply `f` to the element at position `i`, if there is one. -/
def updateAt {α : Type} (f : α → α) : Nat → List α → List α
  | _, [] => []
  | 0, x :: xs => f x :: xs
  | i + 1, x :: xs => x :: updateAt f i xs

/-- Model of `pipeline->create<T>()`: a new stage, appended; returns its handle. -/
def Pipeline.create (p : Pipeline) (kind : NodeKind) : Nat × Pipeline :=
  (p.nodes.length, { p with nodes := p.nodes ++ [{ kind := kind }] })

/-- A setter called through a stage handle. -/
def Pipeline.modifyNode (p : Pipeline) (id : Nat) (f : PNode → PNode) : Pipeline :=
  { p with nodes := updateAt f id p.nodes }

/-- Model of `node->setStreamName(name)`. -/
def Pipeline.setStreamName (p : Pipeline) (id : Nat) (name : String) : Pipeline :=
  p.modifyNode id (fun n => { n with streamName := some name })

/-- Model of `enc->setKeyframeFrequency(k)`. -/
def Pipeline.setKeyframeFrequency (p : Pipeline) (id : Nat) (k : Int) : Pipeline :=
  p.modifyNode id (fun n => { n with keyframeFrequency := some k })

/-- Model of `node->input.setQueueSize(n)`. -/
def Pipeline.setQueueSize (p : Pipeline) (id : Nat) (size : Int) : Pipeline :=
  p.modifyNode id (fun n => { n with inputQueueSize := some size })

/-- Model of `node->input.setBlocking(b)`. -/
def Pipeline.setBlocking (p : Pipeline) (id : Nat) (b : Bool) : Pipeline :=
  p.modifyNode id (fun n => { n with inputBlocking := some b })

/-- Model of `src.link(dst)`. -/
def Pipeline.link (p : Pipeline) (src dst : Endpoint) : Pipeline :=
  { p with links := p.links ++ [{ src := src, dst := dst }] }

/-- Modelled from the spec: `sensor_helpers::createEncoder` is declared in
`sensor_helpers.hpp` (default profile `MJPEG`) but its body is not in this source
set.  Following the EncoderStageFactory section, it creates one compression stage
configured with the quality level, passed through untransformed, and the codec
profile, and returns its handle. -/
def createEncoder (pipeline : Pipeline) (quality : Int) (profile : Profile := Profile.MJPEG) :
    Nat × Pipeline :=
  let r := pipeline.create NodeKind.VideoEncoder
  (r.1, r.2.modifyNode r.1 (fun n => { n with quality := some quality, profile := some profile }))

/-! ## Parameters and node state -/

/-- The values `ph->getParam<T>(key)` returns for the keys `mono.cpp` reads. -/
structure Params where
  i_publish_topic : Bool
  i_low_bandwidth : Bool
  i_low_bandwidth_quality : Int
  i_enable_h264 : Bool
  i_h264_quality : Int
  i_board_socket_id : Int
  i_get_base_device_timestamp : Bool
  i_update_ros_base_time_on_ros_msg : Bool
  i_add_exposure_offset : Bool
  i_exposure_offset : Int
  i_reverse_stereo_socket_order : Bool
  i_max_q_size : Int
  i_calibration_file : String
  i_width : Int
  i_height : Int
  i_enable_lazy_publisher : Bool
  deriving DecidableEq, Repr

/-- Modelled from the spec: `dai::ros::ImageConverter` lives in `depthai_bridge`,
which is not in this source set.  Following the FrameConverter section it is a
record of the decode mode (raw or bitstream passthrough) and of the toggles for
exposure offset, timestamp base policy and stereo socket order; every call made on
it in `setupQueues` sets the corresponding field. -/
structure ImageConverter where
  frameName : String
  interleaved : Bool
  getBaseDeviceTimestamp : Bool
  updateRosBaseTimeOnToRosMsg : Bool := false
  fromBitstream : Bool := false
  addExpOffset : Option Int := none
  reversedStereoSocketOrder : Bool := false
  deriving DecidableEq, Repr

/-- Where the cached calibration record came from. -/
inductive CameraInfoSource
  | unset
  | fromDevice (socket : Int) (width height : Int)
  | fromFile (path : String)
  deriving DecidableEq, Repr

/-- The `camera_info_manager::CameraInfoManager` created in `setupQueues`. -/
structure CameraInfoManager where
  subNode : String
  cname : String
  info : CameraInfoSource := CameraInfoSource.unset
  deriving DecidableEq, Repr

/-- A sink created on the ROS node, identified by its topic. -/
structure Publisher where
  topic : String
  deriving DecidableEq, Repr

/-- The handler value `std::bind` builds around one of the three publish
functions of `sensor_helpers.hpp`, with the arguments bound at registration. -/
inductive Callback
  | cameraPub (converter : ImageConverter) (pub : Publisher) (infoManager : CameraInfoManager)
      (lazyPub : Bool)
  | videoPub (converter : ImageConverter) (pub : Publisher) (w h : Int) (lazyPub : Bool)
  | splitPub (converter : ImageConverter) (imgPub infoPub : Publisher)
      (infoManager : CameraInfoManager) (lazyPub : Bool)
  deriving DecidableEq, Repr

/-- One entry of a `rclcpp::Parameter` list. -/
structure Parameter where
  name : String
  value : Int
  deriving DecidableEq, Repr

/-- The `dai::CameraControl` message; its content is whatever `setRuntimeParams`
put in it. -/
structure CameraControl where
  settings : List (String × Int)
  deriving DecidableEq, Repr

/-- Direction of a channel, seen from the device. -/
inductive Dir
  | output
  | input
  deriving DecidableEq, Repr

/-- Handle of a device queue: a `dai::DataOutputQueue` or a `dai::DataInputQueue`,
with the stream name it was looked up with. -/
structure QueueRef where
  dir : Dir
  name : String
  deriving DecidableEq, Repr

/-- A call made on the device or on one of its queues. -/
inductive DevOp
  | getOutputQueue (name : String) (maxSize : Int) (blocking : Bool)
  | getInputQueue (name : String)
  | addCallback (queue : QueueRef) (cb : Callback)
  | close (queue : QueueRef)
  | send (queue : QueueRef) (ctrl : CameraControl)
  deriving DecidableEq, Repr

/-- The shared `dai::Device`: the calls made on it so far, oldest first. -/
structure Device where
  log : List DevOp := []
  deriving DecidableEq, Repr

/-- Model of `device->getOutputQueue(name, maxSize, blocking)`: the call is logged
and the handle returned; whether the device knows the stream is not modelled. -/
def Device.getOutputQueue (d : Device) (name : String) (maxSize : Int) (blocking : Bool) :
    QueueRef × Device :=
  ({ dir := Dir.output, name := name },
    { log := d.log ++ [DevOp.getOutputQueue name maxSize blocking] })

/-- Model of `device->getInputQueue(name)`. -/
def Device.getInputQueue (d : Device) (name : String) : QueueRef × Device :=
  ({ dir := Dir.input, name := name }, { log := d.log ++ [DevOp.getInputQueue name] })

/-- Model of `queue->addCallback(cb)`. -/
def Device.addCallback (d : Device) (queue : QueueRef) (cb : Callback) : Device :=
  { log := d.log ++ [DevOp.addCallback queue cb] }

/-- Model of `queue->close()`. -/
def Device.close (d : Device) (queue : QueueRef) : Device :=
  { log := d.log ++ [DevOp.close queue] }

/-- Model of `queue->send(ctrl)`. -/
def Device.send (d : Device) (queue : QueueRef) (ctrl : CameraControl) : Device :=
  { log := d.log ++ [DevOp.send queue ctrl] }

/-- What the node reads from its surroundings through `BaseNode` and `utils`,
none of which is in this source set: the ROS node name, `ipcEnabled()`, and the
frame prefix `getTFPrefix(utils::getSocketName(socket))` as a function of the
socket id. -/
structure Env where
  rosNodeName : String
  ipcEnabled : Bool
  tfPrefix : Int → String

/-- Members of `class Mono` (with `getName()` of `BaseNode`).  `monoCamNode` is
assigned in the constructor before anything reads it, so it is a plain handle. -/
structure Mono where
  name : String
  ph : Params
  monoQName : String := ""
  controlQName : String := ""
  h264QName : String := ""
  monoCamNode : Nat
  xoutMono : Option Nat := none
  videoEnc : Option Nat := none
  videoEncH264 : Option Nat := none
  xoutH264 : Option Nat := none
  xinControl : Option Nat := none
  imageConverter : Option ImageConverter := none
  infoManager : Option CameraInfoManager := none
  monoPub : Option Publisher := none
  infoPub : Option Publisher := none
  monoPubIT : Option Publisher := none
  h264Pub : Option Publisher := none
  monoQ : Option QueueRef := none
  h264Q : Option QueueRef := none
  controlQ : Option QueueRef := none
  deriving DecidableEq, Repr

/-! ## Build phase -/

/-- Translation of `Mono::setNames`. -/
def Mono.setNames (m : Mono) : Mono :=
  { m with
    monoQName := m.name ++ "_mono"
    controlQName := m.name ++ "_control"
    h264QName := m.name ++ "_h264" }

/-- Translation of `Mono::setXinXout`. -/
def Mono.setXinXout (m : Mono) (pipeline : Pipeline) : Mono × Pipeline :=
  let s1 : Mono × Pipeline :=
    if m.ph.i_publish_topic then
      let r := pipeline.create NodeKind.XLinkOut
      let xoutMono := r.1
      let m := { m with xoutMono := some xoutMono }
      let pipeline := r.2.setStreamName xoutMono m.monoQName
      if m.ph.i_low_bandwidth then
        let e := createEncoder pipeline m.ph.i_low_bandwidth_quality
        let videoEnc := e.1
        let m := { m with videoEnc := some videoEnc }
        let pipeline := e.2.link ⟨m.monoCamNode, Port.out⟩ ⟨videoEnc, Port.input⟩
        let pipeline := pipeline.link ⟨videoEnc, Port.bitstream⟩ ⟨xoutMono, Port.input⟩
        (m, pipeline)
      else
        (m, pipeline.link ⟨m.monoCamNode, Port.out⟩ ⟨xoutMono, Port.input⟩)
    else
      (m, pipeline)
  let s2 : Mono × Pipeline :=
    let m := s1.1
    let pipeline := s1.2
    if m.ph.i_enable_h264 then
      let e := createEncoder pipeline m.ph.i_h264_quality Profile.H264_HIGH
      let videoEncH264 := e.1
      let m := { m with videoEncH264 := some videoEncH264 }
      let pipeline := e.2.setKeyframeFrequency videoEncH264 30
      let pipeline := pipeline.link ⟨m.monoCamNode, Port.out⟩ ⟨videoEncH264, Port.input⟩
      let r := pipeline.create NodeKind.XLinkOut
      let xoutH264 := r.1
      let m := { m with xoutH264 := some xoutH264 }
      let pipeline := r.2.setStreamName xoutH264 m.h264QName
      let pipeline := pipeline.setQueueSize xoutH264 2
      let pipeline := pipeline.setBlocking xoutH264 false
      let pipeline := pipeline.link ⟨videoEncH264, Port.out⟩ ⟨xoutH264, Port.input⟩
      (m, pipeline)
    else
      (m, pipeline)
  let m := s2.1
  let pipeline := s2.2
  let r := pipeline.create NodeKind.XLinkIn
  let xinControl := r.1
  let m := { m with xinControl := some xinControl }
  let pipeline := r.2.setStreamName xinControl m.controlQName
  let pipeline := pipeline.link ⟨xinControl, Port.out⟩ ⟨m.monoCamNode, Port.inputControl⟩
  (m, pipeline)

/-- Translation of the constructor `Mono::Mono`.  `SensorParamHandler::declareParams`
is not in this source set: the parameter values it leaves behind (`ph`) and the
frame rate it programs into the camera stage (`fps`, in whole frames per second)
are inputs.  The camera stage is created before the record of members is written
down, because `monoCamNode` is a plain handle; `setNames` does not touch the
pipeline, so the order of the two does not matter. -/
def Mono.new (daiNodeName : String) (ph : Params) (fps : Nat) (pipeline : Pipeline) :
    Mono × Pipeline :=
  let r := pipeline.create NodeKind.MonoCamera
  let m : Mono := { name := daiNodeName, ph := ph, monoCamNode := r.1 }
  let m := m.setNames
  let pipeline := r.2.modifyNode r.1 (fun n => { n with fps := some fps })
  m.setXinXout pipeline

/-- Translation of `Mono::link`: the link type is ignored. -/
def Mono.link (m : Mono) (pipeline : Pipeline) (target : Endpoint) (_linkType : Int) : Pipeline :=
  pipeline.link ⟨m.monoCamNode, Port.out⟩ target

/-! ## Activation, teardown, runtime updates -/

/-- Translation of `Mono::setupQueues`. -/
def Mono.setupQueues (env : Env) (m : Mono) (device : Device) : Mono × Device :=
  let tfPrefix := env.tfPrefix m.ph.i_board_socket_id
  let conv : ImageConverter :=
    { frameName := tfPrefix ++ "_camera_optical_frame"
      interleaved := false
      getBaseDeviceTimestamp := m.ph.i_get_base_device_timestamp }
  let conv := { conv with updateRosBaseTimeOnToRosMsg := m.ph.i_update_ros_base_time_on_ros_msg }
  let conv := if m.ph.i_low_bandwidth then { conv with fromBitstream := true } else conv
  let conv :=
    if m.ph.i_add_exposure_offset then { conv with addExpOffset := some m.ph.i_exposure_offset }
    else conv
  let conv :=
    if m.ph.i_reverse_stereo_socket_order then { conv with reversedStereoSocketOrder := true }
    else conv
  let m := { m with imageConverter := some conv }
  let s1 : Mono × Device :=
    if m.ph.i_publish_topic then
      let q := device.getOutputQueue m.monoQName m.ph.i_max_q_size false
      let monoQ := q.1
      let device := q.2
      let m := { m with monoQ := some monoQ }
      let im : CameraInfoManager :=
        { subNode := env.rosNodeName ++ "/" ++ m.name, cname := "/" ++ m.name }
      let im :=
        if m.ph.i_calibration_file.isEmpty then
          { im with info :=
              CameraInfoSource.fromDevice m.ph.i_board_socket_id m.ph.i_width m.ph.i_height }
        else
          { im with info := CameraInfoSource.fromFile m.ph.i_calibration_file }
      let m := { m with infoManager := some im }
      if env.ipcEnabled then
        let monoPub : Publisher := { topic := "~/" ++ m.name ++ "/image_raw" }
        let infoPub : Publisher := { topic := "~/" ++ m.name ++ "/camera_info" }
        let m := { m with monoPub := some monoPub, infoPub := some infoPub }
        let device :=
          device.addCallback monoQ
            (Callback.splitPub conv monoPub infoPub im m.ph.i_enable_lazy_publisher)
        (m, device)
      else
        let monoPubIT : Publisher := { topic := "~/" ++ m.name ++ "/image_raw" }
        let m := { m with monoPubIT := some monoPubIT }
        let device :=
          device.addCallback monoQ
            (Callback.cameraPub conv monoPubIT im m.ph.i_enable_lazy_publisher)
        (m, device)
    else
      (m, device)
  let s2 : Mono × Device :=
    let m := s1.1
    let device := s1.2
    if m.ph.i_enable_h264 then
      let q := device.getOutputQueue m.h264QName m.ph.i_max_q_size false
      let h264Q := q.1
      let device := q.2
      let m := { m with h264Q := some h264Q }
      let h264Pub : Publisher := { topic := "~/" ++ m.name ++ "/h264" }
      let m := { m with h264Pub := some h264Pub }
      let device :=
        device.addCallback h264Q
          (Callback.videoPub conv h264Pub m.ph.i_width m.ph.i_height m.ph.i_enable_lazy_publisher)
      (m, device)
    else
      (m, device)
  let m := s2.1
  let device := s2.2
  let q := device.getInputQueue m.controlQName
  ({ m with controlQ := some q.1 }, q.2)

/-- Translation of `Mono::closeQueues`; fails when it would call through a null
queue member. -/
def Mono.closeQueues (m : Mono) (device : Device) : Option Device := do
  let device ←
    if m.ph.i_publish_topic then
      match m.monoQ with
      | some q => some (device.close q)
      | none => none
    else
      some device
  let device ←
    if m.ph.i_enable_h264 then
      match m.h264Q with
      | some q => some (device.close q)
      | none => none
    else
      some device
  match m.controlQ with
  | some q => some (device.close q)
  | none => none

/-- Translation of `Mono::updateParams`.  `ph->setRuntimeParams` belongs to the
parameter handler, which is not in this source set, and is an argument; fails when
`controlQ` is null. -/
def Mono.updateParams (setRuntimeParams : List Parameter → CameraControl) (m : Mono)
    (device : Device) (params : List Parameter) : Option Device :=
  let ctrl := setRuntimeParams params
  match m.controlQ with
  | some q => some (device.send q ctrl)
  | none => none

/-! ## Views used to state the properties -/

/-- The channel an XLink stage declares: its direction and stream name. -/
def PNode.channel? (n : PNode) : Option (Dir × Option String) :=
  match n.kind with
  | NodeKind.XLinkOut => some (Dir.output, n.streamName)
  | NodeKind.XLinkIn => some (Dir.input, n.streamName)
  | _ => none

/-- Channels of a pipeline, in creation order. -/
def Pipeline.channels (p : Pipeline) : List (Dir × Option String) :=
  p.nodes.filterMap PNode.channel?

/-- The stage behind handle `id`, if the pipeline has one. -/
def Pipeline.stage? (p : Pipeline) (id : Nat) : Option PNode :=
  p.nodes[id]?

/-- Links that end at stage `id`. -/
def Pipeline.linksInto (p : Pipeline) (id : Nat) : List Link :=
  p.links.filter (fun l => decide (l.dst.node = id))

/-- Stage `id` has at least one outgoing link. -/
def Pipeline.hasOutgoingLink (p : Pipeline) (id : Nat) : Bool :=
  p.links.any (fun l => decide (l.src.node = id))

/-- Number of compression stages in the pipeline. -/
def Pipeline.encoderCount (p : Pipeline) : Nat :=
  p.nodes.countP (fun n => decide (n.kind = NodeKind.VideoEncoder))

/-- Every link of the pipeline joins stages that exist. -/
def Pipeline.WF (p : Pipeline) : Prop :=
  ∀ l ∈ p.links, l.src.node < p.nodes.length ∧ l.dst.node < p.nodes.length

instance (p : Pipeline) : Decidable p.WF := by
  unfold Pipeline.WF; infer_instance

/-- The calls made on the device between two of its states. -/
def Device.opsSince (before after : Device) : List DevOp :=
  after.log.drop before.log.length

/-- The queue a call opens, if it opens one. -/
def DevOp.opened? : DevOp → Option (Dir × Option String)
  | DevOp.getOutputQueue name _ _ => some (Dir.output, some name)
  | DevOp.getInputQueue name => some (Dir.input, some name)
  | _ => none

/-- Queues opened by a run of calls, in order. -/
def openedQueues (ops : List DevOp) : List (Dir × Option String) :=
  ops.filterMap DevOp.opened?

/-- The queue a call closes, if it closes one. -/
def DevOp.closed? : DevOp → Option QueueRef
  | DevOp.close queue => some queue
  | _ => none

/-- Queues closed by a run of calls, in order. -/
def closedQueues (ops : List DevOp) : List QueueRef :=
  ops.filterMap DevOp.closed?

/-- The handler a call registers, with the queue it is registered on. -/
def DevOp.registered? : DevOp → Option (QueueRef × Callback)
  | DevOp.addCallback queue cb => some (queue, cb)
  | _ => none

/-- Handlers registered by a run of calls, in order. -/
def registeredCallbacks (ops : List DevOp) : List (QueueRef × Callback) :=
  ops.filterMap DevOp.registered?

/-- Whether queue `q` is open after the calls logged so far: the last call that
opened or closed it was an opening one. -/
def Device.isOpen (d : Device) (q : QueueRef) : Bool :=
  d.log.foldl
    (fun st op =>
      match op with
      | DevOp.getOutputQueue name _ _ =>
        if ({ dir := Dir.output, name := name } : QueueRef) = q then true else st
      | DevOp.getInputQueue name =>
        if ({ dir := Dir.input, name := name } : QueueRef) = q then true else st
      | DevOp.close queue => if queue = q then false else st
      | _ => st)
    false

/-- Which of the three publish functions a handler wraps. -/
inductive PubKind
  | combined
  | split
  | video
  deriving DecidableEq, Repr

/-- The publish function a handler wraps. -/
def Callback.kind : Callback → PubKind
  | Callback.cameraPub _ _ _ _ => PubKind.combined
  | Callback.splitPub _ _ _ _ _ => PubKind.split
  | Callback.videoPub _ _ _ _ _ => PubKind.video

/-- The converter bound to a handler. -/
def Callback.converter : Callback → ImageConverter
  | Callback.cameraPub c _ _ _ => c
  | Callback.splitPub c _ _ _ _ => c
  | Callback.videoPub c _ _ _ _ => c

/-- The `lazyPub` argument bound to a handler. -/
def Callback.lazyPub : Callback → Bool
  | Callback.cameraPub _ _ _ l => l
  | Callback.splitPub _ _ _ _ l => l
  | Callback.videoPub _ _ _ _ l => l

/-- Topics of the sinks a handler publishes on. -/
def Callback.sinks : Callback → List String
  | Callback.cameraPub _ pub _ _ => [pub.topic]
  | Callback.splitPub _ imgPub infoPub _ _ => [imgPub.topic, infoPub.topic]
  | Callback.videoPub _ pub _ _ _ => [pub.topic]

/-- Sample parameter set: raw publishing and the secondary codec both off. -/
def paramsIdle : Params :=
  { i_publish_topic := false, i_low_bandwidth := false, i_low_bandwidth_quality := 50,
    i_enable_h264 := false, i_h264_quality := 80, i_board_socket_id := 1,
    i_get_base_device_timestamp := false, i_update_ros_base_time_on_ros_msg := false,
    i_add_exposure_offset := false, i_exposure_offset := 0,
    i_reverse_stereo_socket_order := false, i_max_q_size := 8, i_calibration_file := "",
    i_width := 640, i_height := 400, i_enable_lazy_publisher := true }

/-- Sample parameter set: raw publishing without transcoding, secondary codec on. -/
def paramsRawH264 : Params :=
  { paramsIdle with i_publish_topic := true, i_enable_h264 := true }

/-- Sample parameter set: raw publishing through the low-bandwidth encoder, secondary
codec on. -/
def paramsAll : Params :=
  { paramsRawH264 with i_low_bandwidth := true }

/-- Sample surroundings: composed in a shared process (intra-process comms on). -/
def envShared : Env :=
  { rosNodeName := "oak", ipcEnabled := true, tfPrefix := fun _ => "oak_left" }

/-- Sample surroundings: stand-alone process (intra-process comms off). -/
def envAlone : Env :=
  { rosNodeName := "oak", ipcEnabled := false, tfPrefix := fun _ => "oak_left" }

/-- Sample pipeline: the state in which the constructor calls `setXinXout`, with the
camera stage as only stage. -/
def pipelineCam : Pipeline :=
  { nodes := [{ kind := NodeKind.MonoCamera, fps := some 30 }] }

/-- Sample node state: the members as the constructor has them when it calls
`setXinXout` on `pipelineCam`. -/
def monoAll : Mono :=
  Mono.setNames { name := "left", ph := paramsAll, monoCamNode := 0 }

theorem updateAt_append_right {α : Type} (f : α → α) (l l' : List α) (k : Nat) :
    updateAt f (l.length + k) (l ++ l') = l ++ updateAt f k l' := by
  induction l with
  | nil => simp
  | cons x xs ih =>
    have h : (x :: xs).length + k = (xs.length + k) + 1 := by simp; omega
    rw [h]
    simp [updateAt, ih]

theorem updateAt_append_length {α : Type} (f : α → α) (l l' : List α) :
    updateAt f l.length (l ++ l') = l ++ updateAt f 0 l' := by
  simpa using updateAt_append_right f l l' 0

theorem stage?_fresh (ns l : List PNode) (ls : List Link) (k : Nat) :
    Pipeline.stage? { nodes := ns ++ l, links := ls } (ns.length + k) = l[k]? := by
  simp [Pipeline.stage?, List.getElem?_append_right]

theorem stage?_fresh_zero (ns l : List PNode) (ls : List Link) :
    Pipeline.stage? { nodes := ns ++ l, links := ls } ns.length = l[0]? := by
  simpa using stage?_fresh ns l ls 0

theorem filter_dst_fresh (p : Pipeline) (hwf : p.WF) (k : Nat) :
    p.links.filter (fun l => decide (l.dst.node = p.nodes.length + k)) = [] := by
  rw [List.filter_eq_nil_iff]
  intro l hl
  have := (hwf l hl).2
  simp only [decide_eq_true_eq]
  omega

theorem any_src_fresh (p : Pipeline) (hwf : p.WF) (k : Nat) :
    p.links.any (fun l => decide (l.src.node = p.nodes.length + k)) = false := by
  rw [List.any_eq_false]
  intro l hl
  have := (hwf l hl).1
  simp only [decide_eq_true_eq]
  omega

/-! ## Build phase: channels, raw path, dangling stages, keyframe interval -/

/-- C1: for every value of `i_publish_topic`, `i_low_bandwidth` and `i_enable_h264`,
the channels `Mono::setXinXout` adds to the pipeline are exactly: the raw output
channel named `monoQName` iff `i_publish_topic`, then the secondary-codec output
channel named `h264QName` iff `i_enable_h264`, then the control input channel named
`controlQName`, always; and flipping `i_low_bandwidth` to any value leaves the
channels unchanged. -/
theorem setXinXout_channels (m : Mono) (p : Pipeline) :
    (m.setXinXout p).2.channels =
        p.channels
          ++ (if m.ph.i_publish_topic then [(Dir.output, some m.monoQName)] else [])
          ++ (if m.ph.i_enable_h264 then [(Dir.output, some m.h264QName)] else [])
          ++ [(Dir.input, some m.controlQName)] ∧
      ∀ b : Bool,
        (Mono.setXinXout { m with ph := { m.ph with i_low_bandwidth := b } } p).2.channels
          = (m.setXinXout p).2.channels := by
  have key : ∀ m' : Mono, (m'.setXinXout p).2.channels =
      p.channels
        ++ (if m'.ph.i_publish_topic then [(Dir.output, some m'.monoQName)] else [])
        ++ (if m'.ph.i_enable_h264 then [(Dir.output, some m'.h264QName)] else [])
        ++ [(Dir.input, some m'.controlQName)] := by
    intro m'
    unfold Mono.setXinXout
    cases hp : m'.ph.i_publish_topic <;> cases hl : m'.ph.i_low_bandwidth <;>
      cases hh : m'.ph.i_enable_h264 <;>
      simp [hp, hl, hh, Pipeline.channels, Pipeline.create, Pipeline.setStreamName,
        Pipeline.modifyNode, Pipeline.link, createEncoder, Pipeline.setKeyframeFrequency,
        Pipeline.setQueueSize, Pipeline.setBlocking, updateAt_append_right,
        updateAt_append_length, updateAt, PNode.channel?]
  refine ⟨key m, fun b => ?_⟩
  rw [key, key]

/-- C3: on a pipeline whose links join existing stages and that holds the camera
stage, `Mono::setXinXout` with `i_publish_topic` true feeds the raw channel by one
path.  With `i_low_bandwidth` true an encoder is created, the only link into it is
camera.out -> encoder.input and the only link into the raw channel is
encoder.bitstream -> raw.input (so no direct camera -> raw link).  With
`i_low_bandwidth` false the only link into the raw channel is camera.out -> raw.input
and `videoEnc` is left as it was.  In every configuration the number of encoders
grows by one for the low-bandwidth encoder exactly when `i_publish_topic` and
`i_low_bandwidth` are both true (plus one for the secondary codec when enabled), and
with `i_publish_topic` false `videoEnc` is left as it was. -/
theorem setXinXout_raw_path (m : Mono) (p : Pipeline) (hwf : p.WF)
    (hcam : m.monoCamNode < p.nodes.length) :
    (m.ph.i_publish_topic = true →
      ∃ raw, (m.setXinXout p).1.xoutMono = some raw ∧
        ((m.setXinXout p).2.stage? raw).bind PNode.channel?
          = some (Dir.output, some m.monoQName) ∧
        (m.ph.i_low_bandwidth = true →
          ∃ enc, (m.setXinXout p).1.videoEnc = some enc ∧
            ((m.setXinXout p).2.stage? enc).map PNode.kind = some NodeKind.VideoEncoder ∧
            (m.setXinXout p).2.linksInto enc
              = [⟨⟨m.monoCamNode, Port.out⟩, ⟨enc, Port.input⟩⟩] ∧
            (m.setXinXout p).2.linksInto raw
              = [⟨⟨enc, Port.bitstream⟩, ⟨raw, Port.input⟩⟩]) ∧
        (m.ph.i_low_bandwidth = false →
          (m.setXinXout p).1.videoEnc = m.videoEnc ∧
            (m.setXinXout p).2.linksInto raw
              = [⟨⟨m.monoCamNode, Port.out⟩, ⟨raw, Port.input⟩⟩])) ∧
    (m.setXinXout p).2.encoderCount =
      p.encoderCount
        + (if m.ph.i_publish_topic && m.ph.i_low_bandwidth then 1 else 0)
        + (if m.ph.i_enable_h264 then 1 else 0) ∧
    (m.ph.i_publish_topic = false → (m.setXinXout p).1.videoEnc = m.videoEnc) := by
  have hne : ∀ k, ¬ m.monoCamNode = p.nodes.length + k := fun k => by omega
  have hne0 : ¬ m.monoCamNode = p.nodes.length := by omega
  have hf := filter_dst_fresh p hwf
  have hf0 := filter_dst_fresh p hwf 0
  simp only [Nat.add_zero] at hf0
  unfold Mono.setXinXout
  cases hp : m.ph.i_publish_topic <;> cases hl : m.ph.i_low_bandwidth <;>
    cases hh : m.ph.i_enable_h264 <;>
    simp [hp, hl, hh, Pipeline.create, Pipeline.setStreamName,
      Pipeline.modifyNode, Pipeline.link, createEncoder, Pipeline.setKeyframeFrequency,
      Pipeline.setQueueSize, Pipeline.setBlocking, updateAt_append_right,
      updateAt_append_length, updateAt, PNode.channel?, Pipeline.linksInto,
      Pipeline.encoderCount, List.filter_append, hf, hf0, hne, hne0, List.filter_cons,
      stage?_fresh, stage?_fresh_zero]

/-- C3 at a sample input: raw publishing through the low-bandwidth encoder, on the
pipeline that holds the camera stage only.  The raw channel is fed by the encoder
alone, and two encoders exist afterwards. -/
theorem setXinXout_raw_path_sample :
    pipelineCam.WF ∧ monoAll.monoCamNode < pipelineCam.nodes.length ∧
      (monoAll.setXinXout pipelineCam).2.encoderCount = 2 ∧
      ∃ raw enc, (monoAll.setXinXout pipelineCam).1.xoutMono = some raw ∧
        (monoAll.setXinXout pipelineCam).1.videoEnc = some enc ∧
        (monoAll.setXinXout pipelineCam).2.linksInto raw
          = [⟨⟨enc, Port.bitstream⟩, ⟨raw, Port.input⟩⟩] := by
  have h := setXinXout_raw_path monoAll pipelineCam (by decide) (by decide)
  obtain ⟨raw, hraw, _, hlow, _⟩ := h.1 (by decide)
  obtain ⟨enc, henc, _, _, hin⟩ := hlow (by decide)
  exact ⟨by decide, by decide, h.2.1.trans (by decide), raw, enc, hraw, henc, hin⟩

/-- C7 fails as stated: with raw publishing and the secondary codec both off, the
constructor creates the camera stage and leaves it without any outgoing link. -/
theorem new_idle_camera_unlinked :
    paramsIdle.i_publish_topic = false ∧ paramsIdle.i_enable_h264 = false ∧
      ((Mono.new "left" paramsIdle 30 {}).2.stage?
          (Mono.new "left" paramsIdle 30 {}).1.monoCamNode).map PNode.kind
        = some NodeKind.MonoCamera ∧
      (Mono.new "left" paramsIdle 30 {}).2.hasOutgoingLink
          (Mono.new "left" paramsIdle 30 {}).1.monoCamNode = false := by
  decide

/-- C7 amended: in the graph the constructor produces on a pipeline whose links join
existing stages, for all 8 combinations of the three flags, every encoder and every
control input the constructor created has at least one outgoing link; the only
camera stage it created is `monoCamNode`, and that stage has an outgoing link
exactly when `i_publish_topic` or `i_enable_h264` is true. -/
theorem new_outputs_linked (name : String) (ph : Params) (fps : Nat) (p0 : Pipeline)
    (hwf : p0.WF) :
    (∀ id n, p0.nodes.length ≤ id → (Mono.new name ph fps p0).2.stage? id = some n →
        (n.kind = NodeKind.VideoEncoder ∨ n.kind = NodeKind.XLinkIn) →
        (Mono.new name ph fps p0).2.hasOutgoingLink id = true) ∧
    (∀ id n, p0.nodes.length ≤ id → (Mono.new name ph fps p0).2.stage? id = some n →
        n.kind = NodeKind.MonoCamera → id = (Mono.new name ph fps p0).1.monoCamNode) ∧
    ((Mono.new name ph fps p0).2.stage? (Mono.new name ph fps p0).1.monoCamNode).map PNode.kind
        = some NodeKind.MonoCamera ∧
    ((Mono.new name ph fps p0).2.hasOutgoingLink (Mono.new name ph fps p0).1.monoCamNode = true
        ↔ (ph.i_publish_topic = true ∨ ph.i_enable_h264 = true)) := by
  have ha := any_src_fresh p0 hwf
  have ha0 := any_src_fresh p0 hwf 0
  simp only [Nat.add_zero] at ha0
  unfold Mono.new Mono.setXinXout
  cases hp : ph.i_publish_topic <;> cases hl : ph.i_low_bandwidth <;>
    cases hh : ph.i_enable_h264 <;>
    simp [hp, hl, hh, Mono.setNames, Pipeline.create, Pipeline.setStreamName,
      Pipeline.modifyNode, Pipeline.link, createEncoder, Pipeline.setKeyframeFrequency,
      Pipeline.setQueueSize, Pipeline.setBlocking, updateAt_append_right,
      updateAt_append_length, updateAt, Pipeline.hasOutgoingLink, ha, ha0,
      stage?_fresh, stage?_fresh_zero] <;>
    (constructor <;> intro id n hle <;> obtain ⟨k, rfl⟩ := Nat.exists_eq_add_of_le hle <;>
      rw [stage?_fresh] <;> rcases k with _ | _ | _ | _ | _ | _ | k <;>
      simp <;> intro h <;> subst h <;> simp)

/-- C7 amended, at a sample input: all three flags on, started from the empty
pipeline; the camera stage has an outgoing link. -/
theorem new_outputs_linked_sample :
    Pipeline.WF {} ∧
      (Mono.new "left" paramsAll 30 {}).2.hasOutgoingLink
          (Mono.new "left" paramsAll 30 {}).1.monoCamNode = true :=
  ⟨by decide, (new_outputs_linked "left" paramsAll 30 {} (by decide)).2.2.2.mpr (by decide)⟩

/-- C8 fails as stated: with the secondary codec on and the camera running at 60
frames per second, the secondary encoder's keyframe interval is 30 frames, not 60. -/
theorem new_h264_keyframe_at_60 :
    paramsRawH264.i_enable_h264 = true ∧
      ((Mono.new "left" paramsRawH264 60 {}).2.stage?
          (Mono.new "left" paramsRawH264 60 {}).1.monoCamNode).bind PNode.fps = some 60 ∧
      (Mono.new "left" paramsRawH264 60 {}).1.videoEncH264 = some 2 ∧
      ((Mono.new "left" paramsRawH264 60 {}).2.stage? 2).bind PNode.keyframeFrequency
        = some 30 := by
  decide

/-- C8 amended: for every configuration with `i_enable_h264` true and every sensor
frame rate `fps`, the secondary encoder the constructor creates (profile H264_HIGH)
has its keyframe interval set to the constant 30 frames; it equals the frame rate,
one keyframe per second, exactly when the sensor runs at 30 frames per second. -/
theorem new_h264_keyframe (name : String) (ph : Params) (fps : Nat) (p0 : Pipeline)
    (hh : ph.i_enable_h264 = true) :
    ((Mono.new name ph fps p0).2.stage? (Mono.new name ph fps p0).1.monoCamNode).bind PNode.fps
        = some fps ∧
    ∃ enc, (Mono.new name ph fps p0).1.videoEncH264 = some enc ∧
      ((Mono.new name ph fps p0).2.stage? enc).map PNode.kind = some NodeKind.VideoEncoder ∧
      ((Mono.new name ph fps p0).2.stage? enc).bind PNode.profile = some Profile.H264_HIGH ∧
      ((Mono.new name ph fps p0).2.stage? enc).bind PNode.keyframeFrequency = some 30 ∧
      (((Mono.new name ph fps p0).2.stage? enc).bind PNode.keyframeFrequency = some (fps : Int)
        ↔ fps = 30) := by
  unfold Mono.new Mono.setXinXout
  cases hp : ph.i_publish_topic <;> cases hl : ph.i_low_bandwidth <;>
    simp [hp, hl, hh, Mono.setNames, Pipeline.create, Pipeline.setStreamName,
      Pipeline.modifyNode, Pipeline.link, createEncoder, Pipeline.setKeyframeFrequency,
      Pipeline.setQueueSize, Pipeline.setBlocking, updateAt_append_right,
      updateAt_append_length, updateAt, stage?_fresh, stage?_fresh_zero] <;>
    omega

/-- C8 amended, at a sample input: all three flags on, camera at 25 frames per
second; the camera stage runs at 25 and the constructor stored a secondary encoder. -/
theorem new_h264_keyframe_sample :
    paramsAll.i_enable_h264 = true ∧
      ((Mono.new "left" paramsAll 25 {}).2.stage?
          (Mono.new "left" paramsAll 25 {}).1.monoCamNode).bind PNode.fps = some 25 ∧
      ∃ enc, (Mono.new "left" paramsAll 25 {}).1.videoEncH264 = some enc ∧
        ((Mono.new "left" paramsAll 25 {}).2.stage? enc).bind PNode.keyframeFrequency
          = some 30 := by
  have h := new_h264_keyframe "left" paramsAll 25 {} (by decide)
  obtain ⟨enc, henc, _, _, hk, _⟩ := h.2
  exact ⟨by decide, h.1, enc, henc, hk⟩

/-! ## Activation, teardown and runtime updates -/

/-- C2: with the same parameters at build and at activation, the queues
`Mono::setupQueues` opens on the device are exactly the channels the constructor's
`setXinXout` created in the pipeline, same direction and stream name, in the same
order.  Handle by handle: `monoQ` is set iff `xoutMono` was built and refers to its
stream, `h264Q` is set iff `xoutH264` was built and refers to its stream, and
`controlQ` refers to the stream of `xinControl`, which is always built and always
opened. -/
theorem setupQueues_opens_built_channels (env : Env) (name : String) (ph : Params) (fps : Nat)
    (p0 : Pipeline) (d0 : Device) :
    p0.channels
        ++ openedQueues
            (Device.opsSince d0 (Mono.setupQueues env (Mono.new name ph fps p0).1 d0).2)
      = (Mono.new name ph fps p0).2.channels ∧
    (Mono.setupQueues env (Mono.new name ph fps p0).1 d0).1.monoQ.map
        (fun q => (q.dir, some q.name))
      = (Mono.new name ph fps p0).1.xoutMono.bind
          (fun id => ((Mono.new name ph fps p0).2.stage? id).bind PNode.channel?) ∧
    (Mono.setupQueues env (Mono.new name ph fps p0).1 d0).1.h264Q.map
        (fun q => (q.dir, some q.name))
      = (Mono.new name ph fps p0).1.xoutH264.bind
          (fun id => ((Mono.new name ph fps p0).2.stage? id).bind PNode.channel?) ∧
    (Mono.setupQueues env (Mono.new name ph fps p0).1 d0).1.controlQ.map
        (fun q => (q.dir, some q.name))
      = (Mono.new name ph fps p0).1.xinControl.bind
          (fun id => ((Mono.new name ph fps p0).2.stage? id).bind PNode.channel?) ∧
    (Mono.setupQueues env (Mono.new name ph fps p0).1 d0).1.controlQ.isSome = true := by
  unfold Mono.setupQueues Mono.new Mono.setXinXout
  cases hp : ph.i_publish_topic <;> cases hl : ph.i_low_bandwidth <;>
    cases hh : ph.i_enable_h264 <;> cases hi : env.ipcEnabled <;>
    simp [hp, hl, hh, hi, Mono.setNames, Pipeline.channels, Pipeline.create,
      Pipeline.setStreamName, Pipeline.modifyNode, Pipeline.link, createEncoder,
      Pipeline.setKeyframeFrequency, Pipeline.setQueueSize, Pipeline.setBlocking,
      updateAt_append_right, updateAt_append_length, updateAt, PNode.channel?,
      stage?_fresh, stage?_fresh_zero, Device.opsSince, openedQueues, DevOp.opened?,
      Device.getOutputQueue, Device.getInputQueue, Device.addCallback]

/-- C4 fails as stated: in shared-process mode (`ipcEnabled()` true) with raw
publishing on, the handler `setupQueues` registers on the raw queue is the split
one, on the two sinks image_raw and camera_info, not the combined one. -/
theorem setupQueues_shared_registers_split :
    envShared.ipcEnabled = true ∧ paramsRawH264.i_publish_topic = true ∧
      (registeredCallbacks
          (Mono.setupQueues envShared (Mono.new "left" paramsRawH264 30 {}).1 {}).2.log).map
        (fun x => (x.1, x.2.kind, x.2.sinks))
        = [(⟨Dir.output, "left_mono"⟩, PubKind.split,
              ["~/left/image_raw", "~/left/camera_info"]),
           (⟨Dir.output, "left_h264"⟩, PubKind.video, ["~/left/h264"])] := by
  decide

/-- C4 amended: for every configuration with raw publishing enabled, `setupQueues`
registers exactly one handler on the raw queue, chosen by the composition mode the
other way round: when `ipcEnabled()` is true it is the split primitive (`splitPub`
on the two independent image_raw and camera_info publishers), otherwise it is the
combined primitive (`cameraPub` on the single camera publisher).  The only other
handler registered is the video one, iff `i_enable_h264`. -/
theorem setupQueues_raw_callback (env : Env) (m : Mono) (d : Device)
    (hp : m.ph.i_publish_topic = true) :
    (registeredCallbacks (Device.opsSince d (Mono.setupQueues env m d).2)).map
        (fun x => (x.1, x.2.kind, x.2.sinks))
      = ((⟨Dir.output, m.monoQName⟩ : QueueRef),
          (if env.ipcEnabled then PubKind.split else PubKind.combined),
          (if env.ipcEnabled then
            ["~/" ++ m.name ++ "/image_raw", "~/" ++ m.name ++ "/camera_info"]
          else ["~/" ++ m.name ++ "/image_raw"]))
        :: (if m.ph.i_enable_h264 then
              [(⟨Dir.output, m.h264QName⟩, PubKind.video, ["~/" ++ m.name ++ "/h264"])]
            else []) := by
  unfold Mono.setupQueues
  cases hh : m.ph.i_enable_h264 <;> cases hi : env.ipcEnabled <;>
    simp [hp, hh, hi, Device.opsSince, registeredCallbacks, DevOp.registered?,
      Device.getOutputQueue, Device.getInputQueue, Device.addCallback, Callback.kind,
      Callback.sinks]

/-- C4 amended, at a sample input: stand-alone process, raw publishing and secondary
codec on; the raw queue gets the combined handler. -/
theorem setupQueues_raw_callback_sample :
    (Mono.new "left" paramsRawH264 30 {}).1.ph.i_publish_topic = true ∧
      (registeredCallbacks
          (Device.opsSince {}
            (Mono.setupQueues envAlone (Mono.new "left" paramsRawH264 30 {}).1 {}).2)).map
        (fun x => (x.1, x.2.kind, x.2.sinks))
        = [(⟨Dir.output, "left_mono"⟩, PubKind.combined, ["~/left/image_raw"]),
           (⟨Dir.output, "left_h264"⟩, PubKind.video, ["~/left/h264"])] :=
  ⟨by decide,
    (setupQueues_raw_callback envAlone (Mono.new "left" paramsRawH264 30 {}).1 {}
      (by decide)).trans (by decide)⟩

/-- C5: for every configuration, `Mono::closeQueues` run after `Mono::setupQueues`
with the same parameters succeeds (it never calls through a queue member that
`setupQueues` left unset) and makes exactly these calls: close on `monoQ` iff
`i_publish_topic`, close on `h264Q` iff `i_enable_h264`, close on `controlQ` always.
The queues it closes are the queues `setupQueues` opened, and none of them is open
afterwards. -/
theorem closeQueues_closes_opened (env : Env) (m : Mono) (d : Device) :
    ∃ d2, Mono.closeQueues (Mono.setupQueues env m d).1 (Mono.setupQueues env m d).2 = some d2 ∧
      d2.log = (Mono.setupQueues env m d).2.log
        ++ (((if m.ph.i_publish_topic then [QueueRef.mk Dir.output m.monoQName] else [])
              ++ (if m.ph.i_enable_h264 then [QueueRef.mk Dir.output m.h264QName] else [])
              ++ [QueueRef.mk Dir.input m.controlQName]).map DevOp.close) ∧
      (closedQueues (Device.opsSince (Mono.setupQueues env m d).2 d2)).map
          (fun q => (q.dir, some q.name))
        = openedQueues (Device.opsSince d (Mono.setupQueues env m d).2) ∧
      ∀ q ∈ closedQueues (Device.opsSince (Mono.setupQueues env m d).2 d2),
        d2.isOpen q = false := by
  unfold Mono.closeQueues Mono.setupQueues
  cases hp : m.ph.i_publish_topic <;> cases hh : m.ph.i_enable_h264 <;>
    cases hi : env.ipcEnabled <;>
    simp [hp, hh, hi, Device.opsSince, openedQueues, closedQueues, DevOp.opened?,
      DevOp.closed?, Device.getOutputQueue, Device.getInputQueue, Device.addCallback,
      Device.close, Device.isOpen, List.foldl_append] <;>
    intro q <;> tauto

/-- C9: for every list of parameter changes and whatever `setRuntimeParams` makes of
it (so also for lists of unrecognized names only), `Mono::updateParams` called after
`setupQueues` succeeds and makes exactly one call on the device: a send, of the
command `setRuntimeParams` returned for that list, on the control input queue that
`setupQueues` opened.  No call is made on the raw or secondary-codec queue. -/
theorem updateParams_sends_one (setRuntimeParams : List Parameter → CameraControl) (env : Env)
    (m : Mono) (d : Device) (params : List Parameter) :
    ∃ d2, Mono.updateParams setRuntimeParams (Mono.setupQueues env m d).1
          (Mono.setupQueues env m d).2 params = some d2 ∧
      Device.opsSince (Mono.setupQueues env m d).2 d2
        = [DevOp.send ⟨Dir.input, m.controlQName⟩ (setRuntimeParams params)] ∧
      d2.log = (Mono.setupQueues env m d).2.log
        ++ [DevOp.send ⟨Dir.input, m.controlQName⟩ (setRuntimeParams params)] ∧
      (Dir.input, some m.controlQName)
        ∈ openedQueues (Device.opsSince d (Mono.setupQueues env m d).2) := by
  unfold Mono.updateParams Mono.setupQueues
  cases hp : m.ph.i_publish_topic <;> cases hh : m.ph.i_enable_h264 <;>
    cases hi : env.ipcEnabled <;>
    simp [hp, hh, hi, Device.opsSince, Device.send, Device.getOutputQueue,
      Device.getInputQueue, Device.addCallback, openedQueues, DevOp.opened?]

/-- C10 fails as stated: with the secondary codec on and `i_low_bandwidth` false, the
converter bound to the video handler is not in bitstream mode. -/
theorem setupQueues_video_converter_raw_mode :
    paramsRawH264.i_enable_h264 = true ∧ paramsRawH264.i_low_bandwidth = false ∧
      (registeredCallbacks
          (Mono.setupQueues envAlone (Mono.new "left" paramsRawH264 30 {}).1 {}).2.log).map
        (fun x => (x.1, x.2.kind, x.2.converter.fromBitstream))
        = [(⟨Dir.output, "left_mono"⟩, PubKind.combined, false),
           (⟨Dir.output, "left_h264"⟩, PubKind.video, false)] := by
  decide

/-- C10 amended: for every configuration with `i_enable_h264` true, `setupQueues`
registers exactly one video handler, on the secondary-codec queue; the width and
height bound to it are the configured `i_width` and `i_height`; the converter bound
to it is the node's converter, which is in bitstream mode exactly when
`i_low_bandwidth` is true. -/
theorem setupQueues_video_callback (env : Env) (m : Mono) (d : Device)
    (hh : m.ph.i_enable_h264 = true) :
    ∃ conv pub,
      (registeredCallbacks (Device.opsSince d (Mono.setupQueues env m d).2)).filter
          (fun x => decide (x.2.kind = PubKind.video))
        = [(⟨Dir.output, m.h264QName⟩,
            Callback.videoPub conv pub m.ph.i_width m.ph.i_height
              m.ph.i_enable_lazy_publisher)] ∧
      (Mono.setupQueues env m d).1.imageConverter = some conv ∧
      conv.fromBitstream = m.ph.i_low_bandwidth := by
  unfold Mono.setupQueues
  cases hp : m.ph.i_publish_topic <;> cases hi : env.ipcEnabled <;>
    cases hl : m.ph.i_low_bandwidth <;>
    simp [hp, hh, hi, hl, Device.opsSince, registeredCallbacks, DevOp.registered?,
      Device.getOutputQueue, Device.getInputQueue, Device.addCallback, Callback.kind,
      List.filter_cons] <;>
    split_ifs <;> rfl

/-- C10 amended, at a sample input: all three flags on; some converter is bound to
the node and it is in bitstream mode. -/
theorem setupQueues_video_callback_sample :
    (Mono.new "left" paramsAll 30 {}).1.ph.i_enable_h264 = true ∧
      ∃ conv,
        (Mono.setupQueues envAlone (Mono.new "left" paramsAll 30 {}).1 {}).1.imageConverter
          = some conv ∧
        conv.fromBitstream = true := by
  obtain ⟨conv, _, _, hc, hb⟩ :=
    setupQueues_video_callback envAlone (Mono.new "left" paramsAll 30 {}).1 {} (by decide)
  exact ⟨by decide, conv, hc, hb.trans (by decide)⟩

end depthai_ros_driver
